import Mathlib

/-!
Verification of the node-xmlrpc HTTP client (`lib/client.js`).

The file shallowly embeds the client's data model and operations:
JavaScript objects become Lean structures with `Option` fields (`none`
standing for an absent/undefined field), in-place mutation becomes
explicit state passing, thrown exceptions become `Except.error`, and the
per-call event handling of `methodCall` becomes a step function over an
explicit call state consuming a trace of transport/deserializer signals.
External collaborators (Node's `url.parse`, zlib's gzip) are passed in as
function parameters; parts of this repository outside `lib/client.js`
(the cookie jar of `lib/cookies.js`) are modelled from the specification
and marked as such.
-/

namespace NodeXmlrpc

/-! ## JavaScript value helpers -/

/-- First character of a JavaScript string, as `charAt(0)` observes it
(`none` when the string is empty). -/
def charAt0 (s : String) : Option Char :=
  s.data.head?

/-- JavaScript falsiness of an optional string field: absent (`undefined` /
`null`) or the empty string. -/
def strFalsy : Option String → Bool
  | none => true
  | some s => s = ""

/-- JavaScript falsiness of an optional numeric field: absent or zero. -/
def natFalsy : Option Nat → Bool
  | none => true
  | some n => n = 0

/-- A JavaScript object used as a string-to-string mapping, in property
insertion order. -/
abbrev Headers := List (String × String)

/-- Property lookup on a header mapping (`undefined` is `none`). -/
def hget (hs : Headers) (k : String) : Option String :=
  match hs with
  | [] => none
  | (k', v) :: t => if k' = k then some v else hget t k

/-- Property assignment on a header mapping: overwrites an existing key in
place, otherwise appends the new key. -/
def hset (hs : Headers) (k v : String) : Headers :=
  match hs with
  | [] => [(k, v)]
  | (k', v') :: t => if k' = k then (k, v) :: t else (k', v') :: hset t k v

/-- UTF-8 encoding of one character, as a list of byte values. -/
def utf8Bytes (c : Char) : List Nat :=
  let n := c.toNat
  if n < 0x80 then [n]
  else if n < 0x800 then [0xC0 + n / 64, 0x80 + n % 64]
  else if n < 0x10000 then [0xE0 + n / 4096, 0x80 + (n / 64) % 64, 0x80 + n % 64]
  else [0xF0 + n / 262144, 0x80 + (n / 4096) % 64, 0x80 + (n / 64) % 64, 0x80 + n % 64]

/-- UTF-8 bytes of a string. -/
def strUtf8Bytes (s : String) : List Nat :=
  (s.data.map utf8Bytes).flatten

/-- The Node `Buffer` encodings the client's claims exercise. -/
inductive BufEncoding where
  | utf8
  | latin1
deriving DecidableEq, Repr

/-- `Buffer.byteLength(s, enc)`: UTF-8 byte count, or one byte per UTF-16
code unit for latin1. -/
def byteLength : BufEncoding → String → Nat
  | .utf8, s => (strUtf8Bytes s).length
  | .latin1, s => s.length

/-- The base64 alphabet. -/
def base64Alphabet : List Char :=
  "ABCDEFGHIJKLMNOPQRSTUVWXYZabcdefghijklmnopqrstuvwxyz0123456789+/".data

/-- Digit of the base64 alphabet. -/
def base64Char (n : Nat) : Char :=
  base64Alphabet.getD n 'A'

/-- One base64 output group for a chunk of at most three bytes. -/
def base64Chunk : List Nat → List Char
  | [a, b, c] =>
      [base64Char (a / 4), base64Char (a % 4 * 16 + b / 16),
       base64Char (b % 16 * 4 + c / 64), base64Char (c % 64)]
  | [a, b] =>
      [base64Char (a / 4), base64Char (a % 4 * 16 + b / 16),
       base64Char (b % 16 * 4), '=']
  | [a] =>
      [base64Char (a / 4), base64Char (a % 4 * 16), '=', '=']
  | _ => []

/-- Base64 encoding of a byte list, three bytes at a time. -/
def base64Bytes : List Nat → List Char
  | a :: b :: c :: rest => base64Chunk [a, b, c] ++ base64Bytes rest
  | rest => base64Chunk rest

/-- `new Buffer(s).toString('base64')`: base64 of the UTF-8 bytes of `s`. -/
def base64String (s : String) : String :=
  String.mk (base64Bytes (strUtf8Bytes s))

/-! ## Client configuration (`lib/client.js` lines 29-104) -/

/-- The `basic_auth` option object. -/
structure BasicAuth where
  user : Option String
  pass : Option String
deriving DecidableEq, Repr

/-- The constructor's options object; `none` marks an absent field. -/
structure Options where
  host : Option String
  port : Option Nat
  path : Option String
  url : Option String
  cookies : Bool
  keepAlive : Option Nat
  gzip : Option String
  userAgent : Option String
  headers : Option Headers
  basic_auth : Option BasicAuth
  method : Option String
deriving DecidableEq, Repr

/-- The fields of a Node `url.parse` result that the client reads. -/
structure ParsedUrl where
  hostname : Option String
  pathname : Option String
  port : Option Nat
deriving DecidableEq, Repr

/-- Lines 36-41: a string URI is converted to an options object via
`url.parse`, with `host`/`path` copied from `hostname`/`pathname`. The
parsed object carries none of the other option fields. -/
def inputToOptions (parse : String → ParsedUrl) : Sum String Options → Options
  | .inl s =>
      let p := parse s
      { host := p.hostname, port := p.port, path := p.pathname, url := none,
        cookies := false, keepAlive := none, gzip := none, userAgent := none,
        headers := none, basic_auth := none, method := none }
  | .inr o => o

/-- Lines 43-48: a `url` option overrides `host`/`path`/`port` with the
parsed fields. -/
def resolveUrlField (parse : String → ParsedUrl) (o : Options) : Options :=
  match o.url with
  | some u =>
      let p := parse u
      { o with host := p.hostname, path := p.pathname, port := p.port }
  | none => o

/-- Lines 56-61: a falsy `path` defaults to `/`; a path whose first
character is not `/` gets `/` prepended. -/
def jsNormalizePath (po : Option String) : Option String :=
  let po := if strFalsy po then some "/" else po
  match po with
  | some p => if p ≠ "" ∧ charAt0 p ≠ some '/' then some ("/" ++ p) else some p
  | none => none

/-- Lines 50-63: default `host` to `localhost` (line 50), `port` to
443/80 (line 53), normalize `path` (lines 56-61), default `keepAlive` to
0 (line 62) and collapse a falsy `gzip` to absent/false (line 63). Each
of those statements reads only the field it assigns, so the sequence of
in-place mutations is this simultaneous record update. -/
def applyDefaults (isSecure : Bool) (o : Options) : Options :=
  { o with
    host := if strFalsy o.host then some "localhost" else o.host,
    port := if natFalsy o.port then some (if isSecure then 443 else 80) else o.port,
    path := jsNormalizePath o.path,
    keepAlive := some (o.keepAlive.getD 0),
    gzip := if strFalsy o.gzip then none else o.gzip }

/-- The resolved URL of lines 65-66. -/
def canonicalUrl (isSecure : Bool) (host : String) (port : Nat) (path : String) : String :=
  (if isSecure then "https://" else "http://") ++ host ++ ":" ++ toString port ++ path

/-- Lines 65-66: overwrite the `url` field with the resolved URL. -/
def setCanonicalUrl (isSecure : Bool) (o : Options) : Options :=
  { o with url := some (canonicalUrl isSecure (o.host.getD "") (o.port.getD 0) (o.path.getD "")) }

/-- Lines 69-84: the default header object, in insertion order, with the
gzip-conditional entries appended. -/
def defaultHeaders (version : String) (o : Options) : Headers :=
  let ua :=
    match o.userAgent with
    | some u => if u = "" then "NodeJS XML-RPC Client/" ++ version else u
    | none => "NodeJS XML-RPC Client/" ++ version
  let hs := [("User-Agent", ua), ("Content-Type", "text/xml"), ("Accept", "text/xml"),
             ("Accept-Charset", "UTF8"), ("Connection", "Keep-Alive")]
  let hs := if o.gzip.isSome then hs ++ [("Accept-Encoding", "gzip")] else hs
  if o.gzip = some "both" then hs ++ [("Content-Encoding", "gzip")] else hs

/-- Lines 97-101: copy each default header whose key the user mapping does
not already define. -/
def fillDefaults (defaults hs : Headers) : Headers :=
  defaults.foldl (fun acc kv => if (hget acc kv.1).isNone then hset acc kv.1 kv.2 else acc) hs

/-- Lines 86-101: default `headers` to an empty mapping, synthesize the
basic-auth `Authorization` header when no `Authorization` entry exists and
both credentials are present, then fill in the default headers. -/
def assembleHeaders (version : String) (o : Options) : Options :=
  let hs := o.headers.getD []
  let hs :=
    if (hget hs "Authorization").isNone then
      match o.basic_auth with
      | some ba =>
          match ba.user, ba.pass with
          | some u, some p =>
              hset hs "Authorization" ("Basic " ++ base64String (u ++ ":" ++ p))
          | _, _ => hs
      | none => hs
    else hs
  { o with headers := some (fillDefaults (defaultHeaders version o) hs) }

/-- The whole option normalization of the constructor (lines 36-104),
ending with `method = 'POST'`. `version` is the package version read for
the default User-Agent; `parse` is Node's `url.parse`. -/
def normalizeOptions (version : String) (parse : String → ParsedUrl)
    (input : Sum String Options) (isSecure : Bool) : Options :=
  let o := inputToOptions parse input
  let o := resolveUrlField parse o
  let o := applyDefaults isSecure o
  let o := setCanonicalUrl isSecure o
  let o := assembleHeaders version o
  { o with method := some "POST" }

/-! ## Cookie jar (`lib/cookies.js`, modelled from the spec) -/

/-- Modelled from the spec: the CookieJar of `lib/cookies.js` (not under
`src/`) is a mapping from cookie name to current value, last write wins. -/
abbrev CookieJar := List (String × String)

/-- Modelled from the spec: `get(name)` returns the current value or
absent. -/
def cookieGet (jar : CookieJar) (name : String) : Option String :=
  hget jar name

/-- Modelled from the spec: `set(name, value)` stores/overwrites the value
for `name`. -/
def cookieSet (jar : CookieJar) (name value : String) : CookieJar :=
  hset jar name value

/-- Modelled from the spec: the `Cookie` header value is the
semicolon-joined list of `name=value` pairs of the jar. -/
def cookieHeaderValue (jar : CookieJar) : String :=
  String.intercalate ";" (jar.map (fun kv => kv.1 ++ "=" ++ kv.2))

/-- Modelled from the spec: the jar's `composeRequest` hook serializes the
full current map into the `Cookie` entry of the outgoing header mapping,
mutating it in place. -/
def cookieComposeRequest (jar : CookieJar) (hs : Headers) : Headers :=
  hset hs "Cookie" (cookieHeaderValue jar)

/-! ## The client object (lines 104-132, 198-225) -/

/-- The constructed client: the stored options object, the secure flag,
and the cookie jar when `options.cookies` was set (the only header
processor the constructor ever registers, lines 116-119). -/
structure Client where
  options : Options
  isSecure : Bool
  cookies : Option CookieJar
deriving DecidableEq, Repr

/-- The constructor (value view): normalize the options, store them, and
create the cookie jar when requested. -/
def mkClient (version : String) (parse : String → ParsedUrl)
    (input : Sum String Options) (isSecure : Bool) : Client :=
  let o := normalizeOptions version parse input isSecure
  { options := o, isSecure := isSecure,
    cookies := if o.cookies then some [] else none }

/-- Errors are carried as plain values; the cookie accessors throw this
exact string (lines 200 and 221). -/
abbrev RpcError := String

/-- The string thrown by `getCookie`/`setCookie` without cookie support —
the spec's ConfigurationError. -/
def configurationError : RpcError :=
  "Cookies support is not turned on for this client instance"

/-- Lines 198-203: `getCookie` throws the configuration error when no jar
exists, otherwise reads the jar. -/
def getCookie (c : Client) (name : String) : Except RpcError (Option String) :=
  match c.cookies with
  | none => .error configurationError
  | some jar => .ok (cookieGet jar name)

/-- Lines 219-225: `setCookie` throws the configuration error when no jar
exists, otherwise writes the jar and returns the client itself. -/
def setCookie (c : Client) (name value : String) : Except RpcError Client :=
  match c.cookies with
  | none => .error configurationError
  | some jar => .ok { c with cookies := some (cookieSet jar name value) }

/-! ## The constructor as a heap mutation (for the aliasing claim)

`this.options = options` (line 104) stores the very object the caller
passed in, after the constructor's assignments mutated it through the
caller's reference. The heap model makes the aliasing observable. -/

/-- A heap of options objects addressed by references. -/
def Heap := Nat → Options

/-- Read the object at a reference. -/
def Heap.read (h : Heap) (r : Nat) : Options := h r

/-- Overwrite the object at a reference. -/
def Heap.write (h : Heap) (r : Nat) (o : Options) : Heap :=
  fun r' => if r' = r then o else h r'

/-- A client whose configuration is a reference into the heap. -/
structure ClientObj where
  optionsRef : Nat
  isSecure : Bool
deriving DecidableEq, Repr

/-- The constructor on an object-valued input (lines 43-104): every
assignment writes through the caller's reference `r`, and line 104 stores
that same reference as `this.options`. -/
def clientConstruct (version : String) (parse : String → ParsedUrl)
    (r : Nat) (h : Heap) (isSecure : Bool) : ClientObj × Heap :=
  ({ optionsRef := r, isSecure := isSecure },
   h.write r (normalizeOptions version parse (.inr (h.read r)) isSecure))

/-! ## `methodCall` (lines 143-189) -/

/-- Line 148: `composeRequest` runs each registered processor over the
given header mapping; the only processor a constructed client can hold is
the cookie jar. -/
def composeRequest (c : Client) (hs : Headers) : Headers :=
  match c.cookies with
  | some jar => cookieComposeRequest jar hs
  | none => hs

/-- Line 148 as a state transformation of the client:
`this.headersProcessors.composeRequest(options.headers)` is applied to the
stored options object's own header mapping (`options` aliases
`this.options`), so the composed headers land back in the stored
configuration. -/
def methodCallHeaderEffect (c : Client) : Client :=
  { c with options :=
      { c.options with headers := some (composeRequest c (c.options.headers.getD [])) } }

/-- Lines 154-162: the `Content-Length` header sent with the request.
`gzipLen` is the length of the zlib-compressed body (zlib is an external
collaborator); in every non-`both` mode the raw body is sent with its
byte length computed with the fixed `'utf8'` encoding argument. -/
def sentContentLength (gzipLen : String → Nat) (gzip : Option String) (xml : String) : Nat :=
  if gzip.isSome && gzip == some "both" then gzipLen xml
  else byteLength .utf8 xml

/-- The `Content-Length` the spec sentence prescribes (for comparison with
`sentContentLength`): the compressed length in mode `both`, otherwise the
body's byte length under the configured request encoding. -/
def specContentLength (gzipLen : String → Nat) (gzip : Option String)
    (enc : BufEncoding) (xml : String) : Nat :=
  if gzip == some "both" then gzipLen xml else byteLength enc xml

/-! ### The per-call event race (lines 164-188)

A call's handlers fire on three kinds of signals: the request's `error`
event, its `end` event (carrying `this.err`, the status code and the
response headers), and the deserializer's completion callback. The state
is the `ended` flag (line 164) plus the payload of the second `end`
listener, registered at line 185 when the deserializer finishes before
the transport has ended. When the `end` event fires, every listener then
registered runs in registration order. Observable actions are
`parseResponse` runs and user-callback invocations. -/

/-- An observable action of one `methodCall` run. -/
inductive Obs where
  | parseResponse (headers : Headers)
  | callback (err : Option RpcError) (value : Option String)
deriving DecidableEq, Repr

/-- A signal delivered to the call's handlers. -/
inductive Signal where
  | transportError (e : RpcError)
  | transportEnd (err : Option RpcError) (status : Nat) (headers : Headers)
  | deserialized (err : Option RpcError) (value : Option String)
deriving DecidableEq, Repr

/-- The per-call mutable state: the `ended` flag and the payload of the
`end` listener the deserializer callback registers at line 185, if any. -/
structure CallState where
  ended : Bool
  pendingEnd : Option (Option RpcError × Option String)
deriving DecidableEq, Repr

/-- The state at the start of a call. -/
def initCallState : CallState := ⟨false, none⟩

/-- One signal's handlers (lines 165-188). On `error`: guard on `ended`,
set it, fire the callback with the error. On `end`: the listener of line
171 sets `ended` and either fires the callback (transport error field or
status 404) or runs `parseResponse`; then the listener of line 185, when
registered, fires the callback with the buffered deserializer outcome. On
the deserializer's completion (line 183): fire the callback at once when
`ended` already holds, otherwise register the second `end` listener. -/
def stepSignal (s : CallState) : Signal → CallState × List Obs
  | .transportError e =>
      if s.ended then (s, [])
      else ({ s with ended := true }, [.callback (some e) none])
  | .transportEnd terr status headers =>
      let s1 := { s with ended := true }
      let fromEndListener : List Obs :=
        match terr with
        | some e => [.callback (some e) none]
        | none =>
            if status == 404 then [.callback (some "Not Found") none]
            else [.parseResponse headers]
      let fromLateListener : List Obs :=
        match s.pendingEnd with
        | some ev => [.callback ev.1 ev.2]
        | none => []
      (s1, fromEndListener ++ fromLateListener)
  | .deserialized e v =>
      if s.ended then (s, [.callback e v])
      else ({ s with pendingEnd := some (e, v) }, [])

/-- Run a call over a trace of signals, collecting the observables. -/
def runSignals (sigs : List Signal) : List Obs :=
  (sigs.foldl
    (fun acc sig =>
      let step := stepSignal acc.1 sig
      (step.1, acc.2 ++ step.2))
    ((initCallState, []) : CallState × List Obs)).2

/-- The number of user-callback invocations among the observables. -/
def callbackCount (os : List Obs) : Nat :=
  os.countP (fun o => match o with | .callback _ _ => true | _ => false)

/-- The first user-callback invocation among the observables, if any. -/
def firstCallback (os : List Obs) : Option Obs :=
  os.find? (fun o => match o with | .callback _ _ => true | _ => false)

/-- `methodCall` from line 146 onward: `Serializer.serializeMethodCall`
runs first, outside any try/catch, so a serializer failure propagates as
a thrown exception (the `Except.error`) and none of the call's handlers
ever run; otherwise the call proceeds and its observable behaviour is the
run over the delivered signals. -/
def methodCallSignals (serialized : Except RpcError String)
    (sigs : List Signal) : Except RpcError (List Obs) :=
  match serialized with
  | .error e => .error e
  | .ok _ => .ok (runSignals sigs)

/-! ## Test fixtures (concrete inputs for counterexamples and witnesses) -/

/-- A `url.parse` stub that resolves nothing. -/
def emptyParse : String → ParsedUrl :=
  fun _ => { hostname := none, pathname := none, port := none }

/-- An options object with every field absent. -/
def plainOptions : Options :=
  { host := none, port := none, path := none, url := none, cookies := false,
    keepAlive := none, gzip := none, userAgent := none, headers := none,
    basic_auth := none, method := none }

/-- An options object that only enables cookie support. -/
def cookieOptions : Options :=
  { plainOptions with cookies := true }

/-- A client constructed with cookie support. -/
def cookieClient : Client :=
  mkClient "2.0" emptyParse (.inr cookieOptions) false

/-- An options object carrying basic-auth credentials. -/
def authOptions : Options :=
  { plainOptions with basic_auth := some ⟨some "user", some "pass"⟩ }

/-- An options object carrying basic-auth credentials and an explicit
`Authorization` header. -/
def authWithHeaderOptions : Options :=
  { authOptions with headers := some [("Authorization", "token")] }

/-! ## Header-mapping lemmas -/

theorem hget_hset_self (hs : Headers) (k v : String) : hget (hset hs k v) k = some v := by
  induction hs with
  | nil => simp [hget, hset]
  | cons kv t ih =>
      by_cases h : kv.1 = k
      · simp [hget, hset, h]
      · simp [hget, hset, h, ih]

theorem hget_hset_ne (hs : Headers) (k' k v : String) (h : k' ≠ k) :
    hget (hset hs k' v) k = hget hs k := by
  induction hs with
  | nil => simp [hget, hset, h]
  | cons kv t ih =>
      by_cases hk : kv.1 = k'
      · simp [hget, hset, hk, h]
      · by_cases hk2 : kv.1 = k
        · simp [hget, hset, hk, hk2, Ne.symm h]
        · simp [hget, hset, hk, hk2, ih]

theorem hget_fillDefaults_of_ne (ds : Headers) (hs : Headers) (k : String)
    (h : ∀ kv ∈ ds, kv.1 ≠ k) : hget (fillDefaults ds hs) k = hget hs k := by
  induction ds generalizing hs with
  | nil => rfl
  | cons kv t ih =>
      have hkv : kv.1 ≠ k := h kv (List.mem_cons_self kv t)
      have ht : ∀ kv' ∈ t, kv'.1 ≠ k := fun kv' hm => h kv' (List.mem_cons_of_mem kv hm)
      show hget (fillDefaults t (if (hget hs kv.1).isNone then hset hs kv.1 kv.2 else hs)) k = _
      rw [ih _ ht]
      by_cases hc : (hget hs kv.1).isNone
      · simp [hc, hget_hset_ne hs kv.1 k kv.2 hkv]
      · simp [hc]

theorem defaultHeaders_keys (version : String) (o : Options) :
    (defaultHeaders version o).map Prod.fst =
      ["User-Agent", "Content-Type", "Accept", "Accept-Charset", "Connection"] ++
        (if o.gzip.isSome then ["Accept-Encoding"] else []) ++
        (if o.gzip = some "both" then ["Content-Encoding"] else []) := by
  simp only [defaultHeaders]
  split <;> split <;> simp

theorem defaultHeaders_keys_ne_authorization (version : String) (o : Options) :
    ∀ kv ∈ defaultHeaders version o, kv.1 ≠ "Authorization" := by
  intro kv hm heq
  have hmem : kv.1 ∈ (defaultHeaders version o).map Prod.fst :=
    List.mem_map_of_mem Prod.fst hm
  rw [defaultHeaders_keys, heq] at hmem
  split at hmem <;> split at hmem <;> exact absurd hmem (by decide)

/-! ## Constructor-stage preservation lemmas -/

theorem resolveUrlField_headers (parse : String → ParsedUrl) (o : Options) :
    (resolveUrlField parse o).headers = o.headers := by
  simp only [resolveUrlField]; split <;> rfl

theorem resolveUrlField_basic_auth (parse : String → ParsedUrl) (o : Options) :
    (resolveUrlField parse o).basic_auth = o.basic_auth := by
  simp only [resolveUrlField]; split <;> rfl

theorem resolveUrlField_cookies (parse : String → ParsedUrl) (o : Options) :
    (resolveUrlField parse o).cookies = o.cookies := by
  simp only [resolveUrlField]; split <;> rfl

theorem applyDefaults_headers (sec : Bool) (o : Options) :
    (applyDefaults sec o).headers = o.headers := rfl

theorem applyDefaults_basic_auth (sec : Bool) (o : Options) :
    (applyDefaults sec o).basic_auth = o.basic_auth := rfl

theorem applyDefaults_cookies (sec : Bool) (o : Options) :
    (applyDefaults sec o).cookies = o.cookies := rfl

theorem setCanonicalUrl_headers (sec : Bool) (o : Options) :
    (setCanonicalUrl sec o).headers = o.headers := rfl

theorem setCanonicalUrl_basic_auth (sec : Bool) (o : Options) :
    (setCanonicalUrl sec o).basic_auth = o.basic_auth := rfl

theorem setCanonicalUrl_cookies (sec : Bool) (o : Options) :
    (setCanonicalUrl sec o).cookies = o.cookies := rfl

theorem setCanonicalUrl_path (sec : Bool) (o : Options) :
    (setCanonicalUrl sec o).path = o.path := rfl

theorem assembleHeaders_path (version : String) (o : Options) :
    (assembleHeaders version o).path = o.path := rfl

theorem assembleHeaders_cookies (version : String) (o : Options) :
    (assembleHeaders version o).cookies = o.cookies := rfl

theorem charAt0_slash_append (p : String) : charAt0 ("/" ++ p) = some '/' := by
  cases p with
  | mk data => rfl

theorem isSome_of_not_strFalsy (x : Option String) (h : strFalsy x = false) : x.isSome := by
  cases x <;> simp [strFalsy] at h ⊢

theorem isSome_of_not_natFalsy (x : Option Nat) (h : natFalsy x = false) : x.isSome := by
  cases x <;> simp [natFalsy] at h ⊢

theorem jsNormalizePath_starts_slash (po : Option String) :
    ∃ p, jsNormalizePath po = some p ∧ charAt0 p = some '/' := by
  rcases po with _ | p
  · exact ⟨"/", by decide, by decide⟩
  · by_cases hempty : p = ""
    · subst hempty
      exact ⟨"/", by decide, by decide⟩
    · by_cases hslash : charAt0 p = some '/'
      · exact ⟨p, by simp [jsNormalizePath, strFalsy, hempty, hslash], hslash⟩
      · exact ⟨"/" ++ p, by simp [jsNormalizePath, strFalsy, hempty, hslash],
          charAt0_slash_append p⟩

theorem applyDefaults_path (sec : Bool) (o : Options) :
    ∃ p, (applyDefaults sec o).path = some p ∧ charAt0 p = some '/' :=
  jsNormalizePath_starts_slash o.path

theorem applyDefaults_host_isSome (sec : Bool) (o : Options) :
    (applyDefaults sec o).host.isSome := by
  show (if strFalsy o.host then some "localhost" else o.host).isSome
  by_cases h : strFalsy o.host
  · simp [h]
  · simp [h, isSome_of_not_strFalsy o.host (by simpa using h)]

theorem applyDefaults_port_isSome (sec : Bool) (o : Options) :
    (applyDefaults sec o).port.isSome := by
  show (if natFalsy o.port then some (if sec then 443 else 80) else o.port).isSome
  by_cases h : natFalsy o.port
  · simp [h]
  · simp [h, isSome_of_not_natFalsy o.port (by simpa using h)]

theorem applyDefaults_keepAlive_isSome (sec : Bool) (o : Options) :
    (applyDefaults sec o).keepAlive.isSome := rfl

theorem assembleHeaders_headers_isSome (version : String) (o : Options) :
    (assembleHeaders version o).headers.isSome := rfl

theorem normalizeOptions_method (version : String) (parse : String → ParsedUrl)
    (input : Sum String Options) (sec : Bool) :
    (normalizeOptions version parse input sec).method = some "POST" := rfl

theorem normalizeOptions_url (version : String) (parse : String → ParsedUrl)
    (input : Sum String Options) (sec : Bool) :
    (normalizeOptions version parse input sec).url =
      some (canonicalUrl sec
        ((normalizeOptions version parse input sec).host.getD "")
        ((normalizeOptions version parse input sec).port.getD 0)
        ((normalizeOptions version parse input sec).path.getD "")) := rfl

theorem Heap.read_write_self (h : Heap) (r : Nat) (o : Options) :
    (h.write r o).read r = o := by
  simp [Heap.read, Heap.write]

theorem Heap.read_write_ne (h : Heap) (r r' : Nat) (o : Options) (hne : r' ≠ r) :
    (h.write r o).read r' = h.read r' := by
  simp [Heap.read, Heap.write, hne]

theorem normalizeOptions_cookies (version : String) (parse : String → ParsedUrl)
    (input : Sum String Options) (sec : Bool) :
    (normalizeOptions version parse input sec).cookies = (inputToOptions parse input).cookies :=
  resolveUrlField_cookies parse (inputToOptions parse input)

theorem hget_assembleHeaders_authorization (version : String) (o : Options) :
    hget ((assembleHeaders version o).headers.getD []) "Authorization" =
      if (hget (o.headers.getD []) "Authorization").isNone then
        (match o.basic_auth with
         | some ba =>
             match ba.user, ba.pass with
             | some u, some p => some ("Basic " ++ base64String (u ++ ":" ++ p))
             | _, _ => none
         | none => none)
      else hget (o.headers.getD []) "Authorization" := by
  show hget (fillDefaults (defaultHeaders version o) _) "Authorization" = _
  rw [hget_fillDefaults_of_ne _ _ _ (defaultHeaders_keys_ne_authorization version o)]
  by_cases hc : (hget (o.headers.getD []) "Authorization").isNone
  · have hnone : hget (o.headers.getD []) "Authorization" = none :=
      Option.isNone_iff_eq_none.mp hc
    simp only [hc, if_true]
    rcases hba : o.basic_auth with _ | ba
    · simpa [hba] using hnone
    · rcases hu : ba.user with _ | u <;> rcases hp : ba.pass with _ | p <;>
        simp only [hba, hu, hp] <;>
        first
        | exact hnone
        | exact hget_hset_self _ _ _
  · simp only [Bool.not_eq_true] at hc
    simp [hc]

/-- C9: for every constructor input (URI string or options object, with or
without a path field, and for any behaviour of the external URL parser),
the resulting configuration's path begins with `/`: a missing path
defaults to `/` and a path not starting with `/` has `/` prepended. -/
theorem path_starts_with_slash (version : String) (parse : String → ParsedUrl)
    (input : Sum String Options) (sec : Bool) :
    ∃ p, (normalizeOptions version parse input sec).path = some p ∧ charAt0 p = some '/' :=
  applyDefaults_path sec (resolveUrlField parse (inputToOptions parse input))

/-- C8: the `Authorization: Basic base64(user:pass)` header is synthesized
exactly when both basic-auth credentials are present and the caller
supplied no `Authorization` header, and a caller-supplied `Authorization`
header is never overwritten. -/
theorem authorization_header_synthesis (version : String) (parse : String → ParsedUrl)
    (input : Sum String Options) (sec : Bool) :
    (∀ a, hget ((inputToOptions parse input).headers.getD []) "Authorization" = some a →
        hget ((normalizeOptions version parse input sec).headers.getD []) "Authorization" = some a) ∧
    (hget ((inputToOptions parse input).headers.getD []) "Authorization" = none →
        hget ((normalizeOptions version parse input sec).headers.getD []) "Authorization" =
          match (inputToOptions parse input).basic_auth with
          | some ba =>
              match ba.user, ba.pass with
              | some u, some p => some ("Basic " ++ base64String (u ++ ":" ++ p))
              | _, _ => none
          | none => none) := by
  have hh : (setCanonicalUrl sec (applyDefaults sec (resolveUrlField parse
      (inputToOptions parse input)))).headers = (inputToOptions parse input).headers := by
    rw [setCanonicalUrl_headers, applyDefaults_headers, resolveUrlField_headers]
  have hb : (setCanonicalUrl sec (applyDefaults sec (resolveUrlField parse
      (inputToOptions parse input)))).basic_auth = (inputToOptions parse input).basic_auth := by
    rw [setCanonicalUrl_basic_auth, applyDefaults_basic_auth, resolveUrlField_basic_auth]
  have key : hget ((normalizeOptions version parse input sec).headers.getD []) "Authorization" =
      if (hget ((inputToOptions parse input).headers.getD []) "Authorization").isNone then
        (match (inputToOptions parse input).basic_auth with
         | some ba =>
             match ba.user, ba.pass with
             | some u, some p => some ("Basic " ++ base64String (u ++ ":" ++ p))
             | _, _ => none
         | none => none)
      else hget ((inputToOptions parse input).headers.getD []) "Authorization" := by
    have h0 := hget_assembleHeaders_authorization version (setCanonicalUrl sec
      (applyDefaults sec (resolveUrlField parse (inputToOptions parse input))))
    rw [hh, hb] at h0
    exact h0
  constructor
  · intro a ha
    rw [key, ha]
    simp
  · intro hnone
    rw [key, hnone]
    simp

/-- Witness for C8 at concrete inputs: credentials present without a
caller `Authorization` header synthesize the Basic header; a caller
header is kept. -/
theorem authorization_header_synthesis_witness :
    hget ((normalizeOptions "1.0" emptyParse (.inr authOptions)
        false).headers.getD []) "Authorization" = some ("Basic " ++ base64String "user:pass") ∧
    hget ((normalizeOptions "1.0" emptyParse (.inr authWithHeaderOptions)
        false).headers.getD []) "Authorization" = some "token" :=
  ⟨(authorization_header_synthesis "1.0" emptyParse (.inr authOptions) false).2 rfl,
   (authorization_header_synthesis "1.0" emptyParse (.inr authWithHeaderOptions) false).1
     "token" rfl⟩

/-- C7: cookie accessors on a client constructed without cookie support
throw the configuration error synchronously (the model involves no I/O at
all); with cookie support they succeed. -/
theorem cookie_accessor_guard (version : String) (parse : String → ParsedUrl)
    (input : Sum String Options) (sec : Bool) (name value : String) :
    ((inputToOptions parse input).cookies = false →
        getCookie (mkClient version parse input sec) name = Except.error configurationError ∧
        setCookie (mkClient version parse input sec) name value =
          Except.error configurationError) ∧
    ((inputToOptions parse input).cookies = true →
        (mkClient version parse input sec).cookies = some [] ∧
        getCookie (mkClient version parse input sec) name = Except.ok (cookieGet [] name) ∧
        setCookie (mkClient version parse input sec) name value =
          Except.ok { (mkClient version parse input sec) with
                      cookies := some (cookieSet [] name value) }) := by
  have hc : (mkClient version parse input sec).cookies =
      (if (inputToOptions parse input).cookies then some [] else none) := by
    show (if (normalizeOptions version parse input sec).cookies then some [] else none) = _
    rw [normalizeOptions_cookies]
  constructor
  · intro hfalse
    rw [hfalse] at hc
    simp only [if_false, Bool.false_eq_true] at hc
    constructor <;> simp [getCookie, setCookie, hc]
  · intro htrue
    rw [htrue] at hc
    simp only [if_true] at hc
    refine ⟨hc, ?_, ?_⟩ <;> simp [getCookie, setCookie, hc]

/-- Witness for C7: a cookie-less client's accessor throws the
configuration error; a cookie-enabled client's accessor succeeds. -/
theorem cookie_accessor_guard_witness :
    getCookie (mkClient "2.0" emptyParse (.inr plainOptions) false) "a" =
      Except.error configurationError ∧
    getCookie (mkClient "2.0" emptyParse (.inr cookieOptions) false) "a" =
      Except.ok (cookieGet [] "a") :=
  ⟨((cookie_accessor_guard "2.0" emptyParse (.inr plainOptions) false "a" "v").1 rfl).1,
   ((cookie_accessor_guard "2.0" emptyParse (.inr cookieOptions) false "a" "v").2 rfl).2.1⟩

/-- C10: the constructor stores the caller's own options object (the same
reference) and mutates it in place — setting `method`, overwriting `url`
with the resolved canonical URL, filling host/port/path/keepAlive and the
header mapping — touching no other heap object. -/
theorem constructor_aliases_caller_options (version : String) (parse : String → ParsedUrl)
    (r : Nat) (h : Heap) (sec : Bool) :
    (clientConstruct version parse r h sec).1.optionsRef = r ∧
    (clientConstruct version parse r h sec).2.read r =
      normalizeOptions version parse (.inr (h.read r)) sec ∧
    ((clientConstruct version parse r h sec).2.read r).method = some "POST" ∧
    ((clientConstruct version parse r h sec).2.read r).url =
      some (canonicalUrl sec
        (((clientConstruct version parse r h sec).2.read r).host.getD "")
        (((clientConstruct version parse r h sec).2.read r).port.getD 0)
        (((clientConstruct version parse r h sec).2.read r).path.getD "")) ∧
    ((clientConstruct version parse r h sec).2.read r).host.isSome ∧
    ((clientConstruct version parse r h sec).2.read r).port.isSome ∧
    ((clientConstruct version parse r h sec).2.read r).path.isSome ∧
    ((clientConstruct version parse r h sec).2.read r).keepAlive.isSome ∧
    ((clientConstruct version parse r h sec).2.read r).headers.isSome ∧
    (∀ r', r' ≠ r → (clientConstruct version parse r h sec).2.read r' = h.read r') := by
  have hread : (clientConstruct version parse r h sec).2.read r =
      normalizeOptions version parse (.inr (h.read r)) sec :=
    Heap.read_write_self h r _
  refine ⟨rfl, hread, ?_, ?_, ?_, ?_, ?_, ?_, ?_, ?_⟩
  · rw [hread]; exact normalizeOptions_method version parse _ sec
  · rw [hread]; exact normalizeOptions_url version parse _ sec
  · rw [hread]
    exact applyDefaults_host_isSome sec (resolveUrlField parse (h.read r))
  · rw [hread]
    exact applyDefaults_port_isSome sec (resolveUrlField parse (h.read r))
  · rw [hread]
    obtain ⟨p, hp, _⟩ := applyDefaults_path sec (resolveUrlField parse (h.read r))
    show (applyDefaults sec (resolveUrlField parse (h.read r))).path.isSome
    rw [hp]; rfl
  · rw [hread]
    exact applyDefaults_keepAlive_isSome sec (resolveUrlField parse (h.read r))
  · rw [hread]
    exact assembleHeaders_headers_isSome version _
  · intro r' hne
    exact Heap.read_write_ne h r r' _ hne

/-- Witness for C10 at a concrete heap: the client holds the caller's
reference, the caller's object now has `method = POST`, and the other
heap cell is untouched. -/
theorem constructor_aliases_caller_options_witness :
    (clientConstruct "1.0" emptyParse 0 (fun _ => plainOptions) false).1.optionsRef = 0 ∧
    ((clientConstruct "1.0" emptyParse 0 (fun _ => plainOptions) false).2.read 0).method =
      some "POST" ∧
    (clientConstruct "1.0" emptyParse 0 (fun _ => plainOptions) false).2.read 1 =
      Heap.read (fun _ => plainOptions) 1 :=
  ⟨(constructor_aliases_caller_options "1.0" emptyParse 0 (fun _ => plainOptions) false).1,
   (constructor_aliases_caller_options "1.0" emptyParse 0 (fun _ => plainOptions) false).2.2.1,
   (constructor_aliases_caller_options "1.0" emptyParse 0 (fun _ => plainOptions) false).2.2.2.2.2.2.2.2.2
     1 (by decide)⟩

/-- C1 counterexample: when the transport ends with status 404 and the
deserializer then yields a result, the user callback fires twice — the
`ended` flag does not discard the later signal (line 184 invokes the
callback again precisely because `ended` is set). The claim's
exactly-once invariant fails at this concrete input. -/
theorem double_callback_after_404_end :
    callbackCount (runSignals
      [.transportEnd none 404 [], .deserialized none (some "value")]) = 2 := rfl

/-- C1 amended: the callback fires exactly once when the transport
completes without error and with a non-404 status (in both arrival
orders), and for a transport error alone or one arriving after the
deserializer; but a deserializer signal arriving after a transport-error
finalization fires the callback a second time instead of being
discarded. -/
theorem callback_count_by_transport_outcome (status : Nat) (h404 : status ≠ 404)
    (hdrs : Headers) (e : RpcError) (derr : Option RpcError) (v : Option String) :
    callbackCount (runSignals [.transportEnd none status hdrs, .deserialized derr v]) = 1 ∧
    callbackCount (runSignals [.deserialized derr v, .transportEnd none status hdrs]) = 1 ∧
    callbackCount (runSignals [.transportError e]) = 1 ∧
    callbackCount (runSignals [.deserialized derr v, .transportError e]) = 1 ∧
    callbackCount (runSignals [.transportError e, .deserialized derr v]) = 2 := by
  have hbeq : (status == 404) = false := by simp [h404]
  refine ⟨?_, ?_, ?_, ?_, ?_⟩ <;>
    simp [runSignals, stepSignal, initCallState, callbackCount, hbeq, h404]

/-- Witness for the amended C1 at status 200. -/
theorem callback_count_by_transport_outcome_witness :
    callbackCount (runSignals
      [Signal.transportEnd none 200 [], Signal.deserialized none (some "v")]) = 1 ∧
    callbackCount (runSignals
      [Signal.deserialized none (some "v"), Signal.transportEnd none 200 []]) = 1 ∧
    callbackCount (runSignals [Signal.transportError "refused"]) = 1 ∧
    callbackCount (runSignals
      [Signal.deserialized none (some "v"), Signal.transportError "refused"]) = 1 ∧
    callbackCount (runSignals
      [Signal.transportError "refused", Signal.deserialized none (some "v")]) = 2 :=
  callback_count_by_transport_outcome 200 (by decide) [] "refused" none (some "v")

/-- C2 counterexample: a deserialization result that parsed successfully
before a 404 transport completion is delivered to the callback (as a
second invocation, after the NotFound one) rather than discarded. -/
theorem deserialized_value_delivered_after_404 :
    runSignals [.deserialized none (some "parsed"), .transportEnd none 404 []] =
      [.callback (some "Not Found") none, .callback none (some "parsed")] := rfl

/-- C2 amended: a 404 transport completion finalizes the call with the
`Not Found` error as the *first* callback invocation in both arrival
orders, but an arriving deserialization result is not discarded: it is
delivered to the callback in an additional, later invocation. -/
theorem notFound_first_then_result_delivered (derr : Option RpcError)
    (v : Option String) (hdrs : Headers) :
    firstCallback (runSignals [.transportEnd none 404 hdrs, .deserialized derr v]) =
      some (.callback (some "Not Found") none) ∧
    Obs.callback derr v ∈ runSignals [.transportEnd none 404 hdrs, .deserialized derr v] ∧
    callbackCount (runSignals [.transportEnd none 404 hdrs, .deserialized derr v]) = 2 ∧
    firstCallback (runSignals [.deserialized derr v, .transportEnd none 404 hdrs]) =
      some (.callback (some "Not Found") none) ∧
    Obs.callback derr v ∈ runSignals [.deserialized derr v, .transportEnd none 404 hdrs] ∧
    callbackCount (runSignals [.deserialized derr v, .transportEnd none 404 hdrs]) = 2 := by
  refine ⟨?_, ?_, ?_, ?_, ?_, ?_⟩ <;>
    simp [runSignals, stepSignal, initCallState, callbackCount, firstCallback]

/-- C5: for a transport completion that is neither a transport error nor
a 404, `parseResponse` runs over the response headers before the single
callback invocation, in both arrival orders; and neither transport
completion alone nor the deserializer result alone invokes the
callback. -/
theorem parseResponse_before_single_callback (status : Nat) (h404 : status ≠ 404)
    (hdrs : Headers) (derr : Option RpcError) (v : Option String) :
    runSignals [.transportEnd none status hdrs, .deserialized derr v] =
      [.parseResponse hdrs, .callback derr v] ∧
    runSignals [.deserialized derr v, .transportEnd none status hdrs] =
      [.parseResponse hdrs, .callback derr v] ∧
    callbackCount (runSignals [.transportEnd none status hdrs]) = 0 ∧
    callbackCount (runSignals [.deserialized derr v]) = 0 := by
  have hbeq : (status == 404) = false := by simp [h404]
  refine ⟨?_, ?_, ?_, ?_⟩ <;>
    simp [runSignals, stepSignal, initCallState, callbackCount, hbeq, h404]

/-- Witness for C5 at status 200. -/
theorem parseResponse_before_single_callback_witness :
    runSignals [Signal.transportEnd none 200 [("k", "v")],
        Signal.deserialized none (some "r")] =
      [Obs.parseResponse [("k", "v")], Obs.callback none (some "r")] ∧
    runSignals [Signal.deserialized none (some "r"),
        Signal.transportEnd none 200 [("k", "v")]] =
      [Obs.parseResponse [("k", "v")], Obs.callback none (some "r")] ∧
    callbackCount (runSignals [Signal.transportEnd none 200 [("k", "v")]]) = 0 ∧
    callbackCount (runSignals [Signal.deserialized none (some "r")]) = 0 :=
  parseResponse_before_single_callback 200 (by decide) [("k", "v")] none (some "r")

/-- C4 counterexample: a serializer failure at line 146 propagates as a
thrown exception out of `methodCall` (no handler runs, no callback
carries it), contradicting the claim that every error reaches the caller
through the callback. -/
theorem serializer_error_raised_not_called_back :
    methodCallSignals (Except.error "unencodable parameter type") [] =
      Except.error "unencodable parameter type" := rfl

/-- C4 amended: transport errors and deserialization errors reach the
caller through the call's callback as its first argument, but a
serializer failure is raised synchronously as an exception out of
`methodCall` and never reaches the callback. -/
theorem error_propagation_paths (xml : String) (e : RpcError)
    (sigs : List Signal) (derr : RpcError) :
    methodCallSignals (Except.error e) sigs = Except.error e ∧
    methodCallSignals (Except.ok xml) [.transportError e] =
      Except.ok [.callback (some e) none] ∧
    methodCallSignals (Except.ok xml)
        [.transportEnd none 200 [], .deserialized (some derr) none] =
      Except.ok [.parseResponse [], .callback (some derr) none] := by
  refine ⟨rfl, ?_, ?_⟩ <;>
    simp [methodCallSignals, runSignals, stepSignal, initCallState]

/-- The cookie jar's compose hook rewrites the `Cookie` entry of whatever
mapping `methodCall` hands it, and the effect preserves the jar. -/
theorem methodCallHeaderEffect_cookie (c : Client) (jar : CookieJar)
    (hc : c.cookies = some jar) :
    (methodCallHeaderEffect c).options.headers =
      some (hset (c.options.headers.getD []) "Cookie" (cookieHeaderValue jar)) ∧
    (methodCallHeaderEffect c).cookies = some jar := by
  constructor
  · simp [methodCallHeaderEffect, composeRequest, hc, cookieComposeRequest]
  · exact hc

/-- C3 counterexample: on a cookie-enabled client with one cookie set,
the stored configuration has no `Cookie` header before `methodCall`, and
carries one after — `composeRequest` ran on the stored mapping itself,
not a working copy. -/
theorem stored_headers_mutated_by_methodCall :
    (setCookie cookieClient "a" "1").map
        (fun c => hget (c.options.headers.getD []) "Cookie") = Except.ok none ∧
    (setCookie cookieClient "a" "1").map
        (fun c => hget ((methodCallHeaderEffect c).options.headers.getD []) "Cookie") =
      Except.ok (some "a=1") :=
  ⟨rfl, rfl⟩

/-- C3 amended: `methodCall` runs `composeRequest` directly over the
client's stored header mapping, so with cookies enabled the stored
configuration gains (or overwrites) the `Cookie` header, the mutation is
visible to the next invocation, and the stored configuration is changed
whenever it had no `Cookie` entry before. -/
theorem composeRequest_mutates_stored_mapping (c : Client) (jar : CookieJar)
    (hc : c.cookies = some jar) :
    (methodCallHeaderEffect c).options.headers =
      some (cookieComposeRequest jar (c.options.headers.getD [])) ∧
    hget ((methodCallHeaderEffect c).options.headers.getD []) "Cookie" =
      some (cookieHeaderValue jar) ∧
    hget ((methodCallHeaderEffect (methodCallHeaderEffect c)).options.headers.getD [])
        "Cookie" = some (cookieHeaderValue jar) ∧
    (hget (c.options.headers.getD []) "Cookie" = none → methodCallHeaderEffect c ≠ c) := by
  obtain ⟨h1, hcook⟩ := methodCallHeaderEffect_cookie c jar hc
  obtain ⟨h1', _⟩ := methodCallHeaderEffect_cookie (methodCallHeaderEffect c) jar hcook
  refine ⟨?_, ?_, ?_, ?_⟩
  · rw [h1]; rfl
  · rw [h1]
    simpa using hget_hset_self (c.options.headers.getD []) "Cookie" (cookieHeaderValue jar)
  · rw [h1']
    simpa using
      hget_hset_self ((methodCallHeaderEffect c).options.headers.getD []) "Cookie"
        (cookieHeaderValue jar)
  · intro hnone heq
    have hhd : (methodCallHeaderEffect c).options.headers = c.options.headers :=
      congrArg (fun cl => cl.options.headers) heq
    rw [h1] at hhd
    have hg := congrArg (fun ho => hget (ho.getD ([] : Headers)) "Cookie") hhd
    simp only [Option.getD_some] at hg
    rw [hget_hset_self, hnone] at hg
    exact Option.noConfusion hg

/-- Witness for the amended C3 on a freshly constructed cookie-enabled
client (empty jar): the stored mapping gains a `Cookie` entry and the
stored configuration changes. -/
theorem composeRequest_mutates_stored_mapping_witness :
    hget ((methodCallHeaderEffect cookieClient).options.headers.getD []) "Cookie" =
      some (cookieHeaderValue []) ∧
    methodCallHeaderEffect cookieClient ≠ cookieClient :=
  ⟨(composeRequest_mutates_stored_mapping cookieClient [] rfl).2.1,
   (composeRequest_mutates_stored_mapping cookieClient [] rfl).2.2.2 rfl⟩

/-- C6 counterexample: with configured request encoding latin1 and a
non-ASCII body, the sent `Content-Length` (line 160 hardcodes `'utf8'`)
differs from the body's byte length under the configured encoding. -/
theorem content_length_not_configured_encoding :
    sentContentLength (fun _ => 0) none "é" = 2 ∧
    byteLength BufEncoding.latin1 "é" = 1 ∧
    sentContentLength (fun _ => 0) none "é" ≠
      specContentLength (fun _ => 0) none BufEncoding.latin1 "é" := by
  refine ⟨?_, ?_, ?_⟩ <;> decide

/-- C6 amended: with gzip mode `both` the declared `Content-Length` is
the compressed body's length; in every other mode it is the body's UTF-8
byte length regardless of the configured request encoding (agreeing with
the spec's formula exactly when that encoding is UTF-8). -/
theorem content_length_by_gzip_mode (gzipLen : String → Nat) (gz : Option String)
    (xml : String) :
    (gz = some "both" → sentContentLength gzipLen gz xml = gzipLen xml) ∧
    (gz ≠ some "both" → sentContentLength gzipLen gz xml =
      byteLength BufEncoding.utf8 xml) ∧
    sentContentLength gzipLen gz xml = specContentLength gzipLen gz BufEncoding.utf8 xml := by
  have hcase : ∀ hne : gz ≠ some "both", (gz.isSome && (gz == some "both")) = false := by
    intro hne
    cases gz with
    | none => rfl
    | some s =>
        have : s ≠ "both" := fun hs => hne (by rw [hs])
        simp [this]
  refine ⟨?_, ?_, ?_⟩
  · intro h; subst h; rfl
  · intro h; simp [sentContentLength, hcase h]
  · by_cases h : gz = some "both"
    · subst h; rfl
    · simp [sentContentLength, specContentLength, hcase h, h]

/-- Witness for the amended C6 in both gzip modes. -/
theorem content_length_by_gzip_mode_witness :
    sentContentLength (fun s => s.length) (some "both") "abc" = 3 ∧
    sentContentLength (fun s => s.length) none "abc" = 3 := by
  constructor
  · rw [(content_length_by_gzip_mode (fun s => s.length) (some "both") "abc").1 rfl]
    decide
  · rw [(content_length_by_gzip_mode (fun s => s.length) none "abc").2.1 (by decide)]
    decide

end NodeXmlrpc
